import Mathlib

/-!
Verification of the startup-configuration logic of the agentic-search tool
server (`src/main.rs`).  The definitions below shallowly embed the data model
(`AgenticSearchConfig` and its parts), the connection-string parsing function
`parse_tidb_conn_str`, the `u16` port parsing, and the configuration
construction performed by `main` for the three search modes (`qdrant`,
`tidb`, `search`), including the environment-variable / command-line
resolution order.  Network effects (the TiDB connection pool, the served
transports) are modelled by values carrying exactly the parameters the code
passes to them.
-/

namespace AgenticSearch

/-- The process environment: a total map from variable names to optionally
set values (`env::var` succeeds exactly on the `some` entries). -/
def Env : Type := String → Option String

/-- `ServiceConfig` from `main.rs`: base URL, optional API key, optional
model identifier. -/
structure ServiceConfig where
  url : String
  api_key : Option String
  model : Option String
deriving Repr, DecidableEq

/-- `QdrantConfig` from `main.rs`. -/
structure QdrantConfig where
  api_key : Option String
  base_url : String
  collection : String
  payload_source : String
deriving Repr, DecidableEq

/-- The options accumulated by the `OptsBuilder` chain in `main.rs`
(`ip_or_hostname`, `tcp_port`, `user`, `pass`, `db_name`, `ssl_opts` root
certificate path, `init` statements).  `tcp_port` is the parsed `u16`. -/
structure PoolOpts where
  ip_or_hostname : Option String
  tcp_port : Nat
  user : Option String
  pass : Option String
  db_name : Option String
  ssl_ca : Option String
  init : List String
deriving Repr, DecidableEq

/-- `mysql::Pool`: modelled by the options it was built from.  Runtime
connection failure in `Pool::new` is environmental and outside this model. -/
structure Pool where
  opts : PoolOpts
deriving Repr, DecidableEq

/-- `Pool::new(opts)`. -/
def Pool.new (o : PoolOpts) : Pool := ⟨o⟩

/-- `TiDBConfig` from `main.rs`. -/
structure TiDBConfig where
  database : String
  table_name : String
  pool : Pool
  search_field : String
  return_field : String
deriving Repr, DecidableEq

/-- `AgenticSearchConfig` from `main.rs`.  `score_threshold` is an `f32` in
the source; it is only parsed and stored (never computed with), so it is
modelled as a rational. -/
structure AgenticSearchConfig where
  qdrant_config : Option QdrantConfig
  tidb_config : Option TiDBConfig
  limit : Nat
  score_threshold : Rat
  chat_service : Option ServiceConfig
  embedding_service : Option ServiceConfig
deriving Repr, DecidableEq

/-- `TransportType` from `main.rs`. -/
inductive TransportType where
  | sse
  | streamHttp
deriving Repr, DecidableEq

/-- The `SearchMode` subcommand as it reaches the `match` in `main`, i.e.
after `clap` has parsed the command line: optional flags are `Option`s and
`limit` / `score_threshold` already carry their `default_value`s when the
flags were absent. -/
inductive SearchMode where
  | qdrant (qdrant_collection qdrant_payload_field : Option String)
      (limit : Nat) (score_threshold : Rat)
      (embedding_service_base_url : Option String)
  | tidb (tidb_ssl_ca tidb_table_name tidb_search_field tidb_return_field : Option String)
      (limit : Nat) (score_threshold : Rat)
      (chat_service_base_url : Option String)
  | search (qdrant_collection qdrant_payload_field tidb_ssl_ca tidb_table_name
        tidb_search_field tidb_return_field : Option String)
      (limit : Nat) (score_threshold : Rat)
      (chat_service_base_url embedding_service_base_url : Option String)
deriving Repr, DecidableEq

/-- The raw `qdrant` subcommand flags as given on the command line
(`none` = flag absent). -/
structure QdrantCli where
  qdrant_collection : Option String
  qdrant_payload_field : Option String
  limit : Option Nat
  score_threshold : Option Rat
  embedding_service_base_url : Option String
deriving Repr, DecidableEq

/-- The raw `tidb` subcommand flags as given on the command line. -/
structure TidbCli where
  tidb_ssl_ca : Option String
  tidb_table_name : Option String
  tidb_search_field : Option String
  tidb_return_field : Option String
  limit : Option Nat
  score_threshold : Option Rat
  chat_service_base_url : Option String
deriving Repr, DecidableEq

/-- The raw `search` subcommand flags as given on the command line. -/
structure SearchCli where
  qdrant_collection : Option String
  qdrant_payload_field : Option String
  tidb_ssl_ca : Option String
  tidb_table_name : Option String
  tidb_search_field : Option String
  tidb_return_field : Option String
  limit : Option Nat
  score_threshold : Option Rat
  chat_service_base_url : Option String
  embedding_service_base_url : Option String
deriving Repr, DecidableEq

/-- `clap` parsing of the `qdrant` subcommand: `--limit` has
`default_value = "10"`, `--score-threshold` has `default_value = "0.5"`. -/
def QdrantCli.parseArgs (c : QdrantCli) : SearchMode :=
  .qdrant c.qdrant_collection c.qdrant_payload_field
    (c.limit.getD 10) (c.score_threshold.getD (1/2)) c.embedding_service_base_url

/-- `clap` parsing of the `tidb` subcommand (same defaults). -/
def TidbCli.parseArgs (c : TidbCli) : SearchMode :=
  .tidb c.tidb_ssl_ca c.tidb_table_name c.tidb_search_field c.tidb_return_field
    (c.limit.getD 10) (c.score_threshold.getD (1/2)) c.chat_service_base_url

/-- `clap` parsing of the `search` subcommand (same defaults). -/
def SearchCli.parseArgs (c : SearchCli) : SearchMode :=
  .search c.qdrant_collection c.qdrant_payload_field c.tidb_ssl_ca c.tidb_table_name
    c.tidb_search_field c.tidb_return_field
    (c.limit.getD 10) (c.score_threshold.getD (1/2))
    c.chat_service_base_url c.embedding_service_base_url

/-- `Args` from `main.rs` (after `clap`). -/
structure Args where
  socket_addr : String
  transport : TransportType
  search_mode : SearchMode

/-- `DEFAULT_QDRANT_BASE_URL` from `main.rs`. -/
def DEFAULT_QDRANT_BASE_URL : String := "http://127.0.0.1:6333"

/-! ### The connection-string regex

`parse_tidb_conn_str` applies the anchored regex
`^mysql://([^:]+):([^@]+)@([^:/]+):(\d+)/(.+)$` and returns the five capture
groups.  Each character class excludes the delimiter that follows it, so the
greedy match is forced: every group is the maximal run of characters allowed
by its class, and the match is the unique decomposition of the input.  The
functions below implement exactly that decomposition.  `.` in the final
group does not match a newline (the regex is compiled without the `s` flag),
and `$` anchors at the very end of the haystack.  The class `\d` in the
`regex` crate is Unicode-aware: it matches `\p{Nd}`, the Unicode general
category Decimal Number, modelled below by `isNd`. -/

/-- The start code points of the blocks of ten consecutive Unicode decimal
digits (general category `Nd`, i.e. `\p{Nd}` = the regex crate's `\d`),
per Unicode 15.0.0.  Every `Nd` character is one of `start..start+9` for a
start in this list (each script's decimal digits 0..9 are contiguous). -/
def ndBlockStarts : List Nat :=
  [48, 1632, 1776, 1984, 2406, 2534, 2662, 2790, 2918, 3046, 3174, 3302,
   3430, 3558, 3664, 3792, 3872, 4160, 4240, 6112, 6160, 6470, 6608, 6784,
   6800, 6992, 7088, 7232, 7248, 42528, 43216, 43264, 43472, 43504, 43600,
   44016, 65296, 66720, 68912, 69734, 69872, 69942, 70096, 70384, 70736,
   70864, 71248, 71360, 71472, 71904, 72016, 72784, 73040, 73120, 73552,
   92768, 92864, 93008, 120782, 120792, 120802, 120812, 120822, 123200,
   123632, 124144, 125264, 130032]

/-- The Unicode property `\p{Nd}` (Decimal Number), the meaning of `\d` in
the source's regex. -/
def isNd (c : Char) : Bool :=
  ndBlockStarts.any (fun s => decide (s ≤ c.toNat ∧ c.toNat ≤ s + 9))

/-- Consume an exact literal from the front of a character list. -/
def dropLit : List Char → List Char → Option (List Char)
  | [], cs => some cs
  | _ :: _, [] => none
  | l :: ls, c :: cs => if c = l then dropLit ls cs else none

/-- One `([class]+)delim` step of the regex: take the maximal run of
characters satisfying `q`, then require the next character to be `stop` and
the run to be non-empty.  Returns the run and the remainder after `stop`. -/
def munch1 (q : Char → Bool) (stop : Char) (cs : List Char) :
    Option (List Char × List Char) :=
  match cs.dropWhile q with
  | c :: rest =>
    if c = stop ∧ cs.takeWhile q ≠ [] then some (cs.takeWhile q, rest) else none
  | [] => none

/-- The full regex match on character lists, returning the five groups. -/
def connMatchList (cs : List Char) :
    Option (List Char × List Char × List Char × List Char × List Char) :=
  match dropLit ("mysql://".data) cs with
  | none => none
  | some r0 =>
    match munch1 (fun c => c != ':') ':' r0 with
    | none => none
    | some (u, r1) =>
      match munch1 (fun c => c != '@') '@' r1 with
      | none => none
      | some (p, r2) =>
        match munch1 (fun c => c != ':' && c != '/') ':' r2 with
        | none => none
        | some (h, r3) =>
          match munch1 isNd '/' r3 with
          | none => none
          | some (po, r4) =>
            if r4 ≠ [] ∧ ∀ c ∈ r4, c ≠ '\n' then some (u, p, h, po, r4) else none

/-- `parse_tidb_conn_str` from `main.rs`: `(username, password, host, port,
database)` on a regex match, `None` otherwise. -/
def parse_tidb_conn_str (s : String) :
    Option (String × String × String × String × String) :=
  match connMatchList s.data with
  | none => none
  | some (u, p, h, po, d) =>
    some (String.mk u, String.mk p, String.mk h, String.mk po, String.mk d)

/-- Decimal value of a digit string (accumulator form, as `u16::from_str`
accumulates). -/
def digitsVal (cs : List Char) : Nat :=
  cs.foldl (fun a c => a * 10 + (c.toNat - 48)) 0

/-- Rust's `str::parse::<u16>` on character lists: an optional leading `+`,
then one or more digits, with the accumulated value required to fit in
`u16` (checked accumulation fails exactly when the value exceeds 65535). -/
def parseU16List (cs : List Char) : Option Nat :=
  let t := if cs.head? = some '+' then cs.tail else cs
  if t ≠ [] ∧ t.all Char.isDigit then
    if digitsVal t ≤ 65535 then some (digitsVal t) else none
  else none

/-- Rust's `str::parse::<u16>` (`port.parse::<u16>()` in `main.rs`). -/
def parseU16 (s : String) : Option Nat := parseU16List s.data

/-! ### Configuration construction in `main`

Each required item follows the pattern of `main.rs`: try the environment
variable first, then the command-line flag, else `bail!` with the error
message of the source.  Items with a default instead fall back to the
default value. -/

/-- Resolution of a required item: environment variable, then command-line
argument, then a startup error. -/
def resolveRequired (envVal argVal : Option String) (errMsg : String) :
    Except String String :=
  match envVal with
  | some v => .ok v
  | none =>
    match argVal with
    | some v => .ok v
    | none => .error errMsg

/-- Resolution of a defaulted item: environment variable, then command-line
argument, then the default. -/
def resolveDefault (envVal argVal : Option String) (dflt : String) : String :=
  match envVal with
  | some v => v
  | none =>
    match argVal with
    | some v => v
    | none => dflt

/-- The value a required or defaulted-to-`none` item resolves to:
environment first, else the argument. -/
def firstOf (envVal argVal : Option String) : Option String :=
  match envVal with
  | some v => some v
  | none => argVal

def qdrantCollectionErr : String :=
  "QDRANT_COLLECTION environment variable or --qdrant-collection argument is required"

def qdrantPayloadFieldErr : String :=
  "QDRANT_PAYLOAD_FIELD environment variable or --qdrant-payload-field argument is required"

def embeddingServiceBaseUrlErr : String :=
  "EMBEDDING_SERVICE_BASE_URL environment variable or --embedding-service-base-url argument is required"

def tidbSslCaErr : String :=
  "TIDB_SSL_CA environment variable or --tidb-ssl-ca argument is required"

def tidbTableNameErr : String :=
  "TIDB_TABLE_NAME environment variable or --tidb-table-name argument is required"

def chatServiceBaseUrlErr : String :=
  "CHAT_SERVICE_BASE_URL environment variable or --chat-service-base-url argument is required"

/-- The `bail!` message when `env::var("TIDB_CONNECTION")` fails. -/
def tidbConnectionMissingErr : String :=
  "Failed to get TIDB_CONNECTION: environment variable not found"

def invalidConnStrErr : String :=
  "Invalid connection string! The pattern should be `mysql://<USERNAME>:<PASSWORD>@<HOST>:<PORT>/<DATABASE>`"

/-- The error when `port.parse::<u16>()` fails (the source interpolates the
`ParseIntError`; the model keeps the fixed part of the message). -/
def tidbPortParseErr : String := "Failed to parse TIDB_PORT"

/-- The configuration `main` builds from the resolved inputs, one arm per
subcommand, mirroring the `match args.search_mode` in `main.rs`.
Installation of the TLS crypto provider and the runtime side of
`Pool::new` are environmental and not part of the state model. -/
def mkSearchConfig (env : Env) : SearchMode → Except String AgenticSearchConfig
  | .qdrant qdrant_collection qdrant_payload_field limit score_threshold
      embedding_service_base_url =>
    match resolveRequired (env "QDRANT_COLLECTION") qdrant_collection qdrantCollectionErr with
    | .error e => .error e
    | .ok coll =>
      match resolveRequired (env "QDRANT_PAYLOAD_FIELD") qdrant_payload_field qdrantPayloadFieldErr with
      | .error e => .error e
      | .ok pf =>
        match resolveRequired (env "EMBEDDING_SERVICE_BASE_URL") embedding_service_base_url embeddingServiceBaseUrlErr with
        | .error e => .error e
        | .ok eurl =>
          .ok { qdrant_config := some
                  { api_key := env "QDRANT_API_KEY"
                    base_url := (env "QDRANT_BASE_URL").getD DEFAULT_QDRANT_BASE_URL
                    collection := coll
                    payload_source := pf }
                tidb_config := none
                limit := limit
                score_threshold := score_threshold
                chat_service := none
                embedding_service := some
                  { url := eurl
                    api_key := env "EMBEDDING_SERVICE_API_KEY"
                    model := env "EMBEDDING_SERVICE_MODEL" } }
  | .tidb tidb_ssl_ca tidb_table_name tidb_search_field tidb_return_field
      limit score_threshold chat_service_base_url =>
    match resolveRequired (env "TIDB_SSL_CA") tidb_ssl_ca tidbSslCaErr with
    | .error e => .error e
    | .ok ca =>
      match resolveRequired (env "TIDB_TABLE_NAME") tidb_table_name tidbTableNameErr with
      | .error e => .error e
      | .ok tn =>
        match env "TIDB_CONNECTION" with
        | none => .error tidbConnectionMissingErr
        | some conn =>
          match parse_tidb_conn_str conn with
          | none => .error invalidConnStrErr
          | some (username, password, host, portStr, database) =>
            match parseU16 portStr with
            | none => .error tidbPortParseErr
            | some port =>
              match resolveRequired (env "CHAT_SERVICE_BASE_URL") chat_service_base_url chatServiceBaseUrlErr with
              | .error e => .error e
              | .ok curl =>
                .ok { qdrant_config := none
                      tidb_config := some
                        { database := database
                          table_name := tn
                          pool := Pool.new
                            { ip_or_hostname := some host
                              tcp_port := port
                              user := some username
                              pass := some password
                              db_name := some database
                              ssl_ca := some ca
                              init := ["SET NAMES utf8mb4"] }
                          search_field := resolveDefault (env "TIDB_SEARCH_FIELD") tidb_search_field "content"
                          return_field := resolveDefault (env "TIDB_RETURN_FIELD") tidb_return_field "*" }
                      limit := limit
                      score_threshold := score_threshold
                      chat_service := some
                        { url := curl
                          api_key := env "CHAT_SERVICE_API_KEY"
                          model := env "CHAT_SERVICE_MODEL" }
                      embedding_service := none }
  | .search qdrant_collection qdrant_payload_field tidb_ssl_ca tidb_table_name
      tidb_search_field tidb_return_field limit score_threshold
      chat_service_base_url embedding_service_base_url =>
    match resolveRequired (env "QDRANT_COLLECTION") qdrant_collection qdrantCollectionErr with
    | .error e => .error e
    | .ok coll =>
      match resolveRequired (env "QDRANT_PAYLOAD_FIELD") qdrant_payload_field qdrantPayloadFieldErr with
      | .error e => .error e
      | .ok pf =>
        match resolveRequired (env "TIDB_SSL_CA") tidb_ssl_ca tidbSslCaErr with
        | .error e => .error e
        | .ok ca =>
          match resolveRequired (env "TIDB_TABLE_NAME") tidb_table_name tidbTableNameErr with
          | .error e => .error e
          | .ok tn =>
            match env "TIDB_CONNECTION" with
            | none => .error tidbConnectionMissingErr
            | some conn =>
              match parse_tidb_conn_str conn with
              | none => .error invalidConnStrErr
              | some (username, password, host, portStr, database) =>
                match parseU16 portStr with
                | none => .error tidbPortParseErr
                | some port =>
                  match resolveRequired (env "CHAT_SERVICE_BASE_URL") chat_service_base_url chatServiceBaseUrlErr with
                  | .error e => .error e
                  | .ok curl =>
                    match resolveRequired (env "EMBEDDING_SERVICE_BASE_URL") embedding_service_base_url embeddingServiceBaseUrlErr with
                    | .error e => .error e
                    | .ok eurl =>
                      .ok { qdrant_config := some
                              { api_key := env "QDRANT_API_KEY"
                                base_url := (env "QDRANT_BASE_URL").getD DEFAULT_QDRANT_BASE_URL
                                collection := coll
                                payload_source := pf }
                            tidb_config := some
                              { database := database
                                table_name := tn
                                pool := Pool.new
                                  { ip_or_hostname := some host
                                    tcp_port := port
                                    user := some username
                                    pass := some password
                                    db_name := some database
                                    ssl_ca := some ca
                                    init := [] }
                                search_field := resolveDefault (env "TIDB_SEARCH_FIELD") tidb_search_field "content"
                                return_field := resolveDefault (env "TIDB_RETURN_FIELD") tidb_return_field "*" }
                            limit := limit
                            score_threshold := score_threshold
                            chat_service := some
                              { url := curl
                                api_key := env "CHAT_SERVICE_API_KEY"
                                model := env "CHAT_SERVICE_MODEL" }
                            embedding_service := some
                              { url := eurl
                                api_key := env "EMBEDDING_SERVICE_API_KEY"
                                model := env "EMBEDDING_SERVICE_MODEL" } }

/-- Modelled from the spec: `AgenticSearchServer` (defined in the missing
`search.rs`) is the tool server; `AgenticSearchServer::new(config)` wraps
the configuration that determines the exposed tool contract. -/
structure AgenticSearchServer where
  config : AgenticSearchConfig
deriving Repr, DecidableEq

/-- Modelled from the spec: `AgenticSearchServer::new`. -/
def AgenticSearchServer.new (c : AgenticSearchConfig) : AgenticSearchServer := ⟨c⟩

/-- `Clone::clone` on the derived `Clone` of `AgenticSearchConfig`:
a value-preserving copy. -/
def AgenticSearchConfig.clone (c : AgenticSearchConfig) : AgenticSearchConfig := c

/-- The server value each transport branch of `main` constructs: both the
streaming-HTTP branch and the SSE branch build
`AgenticSearchServer::new(search_config.clone())`. -/
def servedServer (t : TransportType) (search_config : AgenticSearchConfig) :
    AgenticSearchServer :=
  match t with
  | .streamHttp => AgenticSearchServer.new search_config.clone
  | .sse => AgenticSearchServer.new search_config.clone

/-- `main` up to the point where a server value exists: resolve the
configuration, then hand it to the selected transport.  Any configuration
error aborts before a server is constructed. -/
def runMain (env : Env) (args : Args) : Except String AgenticSearchServer :=
  match mkSearchConfig env args.search_mode with
  | .error e => .error e
  | .ok cfg => .ok (servedServer args.transport cfg)

/-- Point update of an environment. -/
def setVar (env : Env) (k : String) (v : Option String) : Env :=
  fun x => if x = k then v else env x

/-- Whether an `Except` computation succeeded. -/
def isOkE {ε α : Type} : Except ε α → Bool
  | .ok _ => true
  | .error _ => false

/-- The connection-string pattern exactly as the specification claim words
it: `mysql://<USERNAME>:<PASSWORD>@<HOST>:<PORT>/<DATABASE>` with USERNAME
non-empty without `:`, PASSWORD non-empty without `@`, HOST non-empty
without `:` or `/`, PORT a non-empty digit string, and DATABASE non-empty
(no further restriction). -/
def claimConnPattern (s u p h po d : String) : Prop :=
  s = "mysql://" ++ u ++ ":" ++ p ++ "@" ++ h ++ ":" ++ po ++ "/" ++ d ∧
  u ≠ "" ∧ (∀ c ∈ u.data, c ≠ ':') ∧
  p ≠ "" ∧ (∀ c ∈ p.data, c ≠ '@') ∧
  h ≠ "" ∧ (∀ c ∈ h.data, c ≠ ':' ∧ c ≠ '/') ∧
  po ≠ "" ∧ (∀ c ∈ po.data, c.isDigit) ∧
  d ≠ ""

/-- Remove the three defaulted configuration variables from an
environment. -/
def eraseDefaulted (env : Env) : Env :=
  fun k =>
    if k = "TIDB_SEARCH_FIELD" ∨ k = "TIDB_RETURN_FIELD" ∨ k = "QDRANT_BASE_URL" then none
    else env k

/-- An environment with every variable set (to "42"). -/
def envAll42 : Env := fun _ => some "42"

/-- The empty environment. -/
def envNone : Env := fun _ => none

/-- An environment with a valid TiDB connection string and every other
variable set to "42". -/
def envT : Env :=
  fun k => if k = "TIDB_CONNECTION" then some "mysql://u:pw@h:4000/db" else some "42"

/-- An environment whose TiDB connection string carries a port written with
the Arabic-Indic digit five (U+0665); every other variable is set to
"42". -/
def envU : Env :=
  fun k => if k = "TIDB_CONNECTION" then some "mysql://u:p@h:٥/db" else some "42"

/-- Claim-side: the numeric value of a Unicode decimal digit — its offset
within its `Nd` block of ten. -/
def charNdVal (c : Char) : Nat :=
  match ndBlockStarts.find? (fun s => decide (s ≤ c.toNat ∧ c.toNat ≤ s + 9)) with
  | some s => c.toNat - s
  | none => 0

/-- Claim-side: the integer a decimal-digit string represents. -/
def portRepValue (po : String) : Nat :=
  po.data.foldl (fun a c => a * 10 + charNdVal c) 0

/-- Like `envT` but with the three defaulted variables unset. -/
def envD : Env :=
  fun k =>
    if k = "TIDB_CONNECTION" then some "mysql://u:pw@h:4000/db"
    else if k = "TIDB_SEARCH_FIELD" ∨ k = "TIDB_RETURN_FIELD" ∨ k = "QDRANT_BASE_URL" then none
    else some "42"

/-- A `qdrant` command line with no flags given. -/
def cliQ0 : QdrantCli := ⟨none, none, none, none, none⟩

/-- A `tidb` command line with no flags given. -/
def cliT0 : TidbCli := ⟨none, none, none, none, none, none, none⟩

/-- A `search` command line with no flags given. -/
def cliS0 : SearchCli := ⟨none, none, none, none, none, none, none, none, none, none⟩

/-- The configuration `main` builds in `qdrant` mode under `envAll42` with
no flags. -/
def cfgQ42 : AgenticSearchConfig :=
  { qdrant_config := some
      { api_key := some "42", base_url := "42", collection := "42", payload_source := "42" }
    tidb_config := none
    limit := 10
    score_threshold := 1/2
    chat_service := none
    embedding_service := some { url := "42", api_key := some "42", model := some "42" } }

/-- The configuration `main` builds in `qdrant` mode under `envAll42` with
`--limit 7 --score-threshold 0.75`. -/
def cfg742 : AgenticSearchConfig :=
  { cfgQ42 with limit := 7, score_threshold := 3/4 }

/-- The configuration `main` builds in `tidb` mode under `envT` with no
flags. -/
def cfgT : AgenticSearchConfig :=
  { qdrant_config := none
    tidb_config := some
      { database := "db"
        table_name := "42"
        pool := Pool.new
          { ip_or_hostname := some "h", tcp_port := 4000, user := some "u",
            pass := some "pw", db_name := some "db", ssl_ca := some "42",
            init := ["SET NAMES utf8mb4"] }
        search_field := "42"
        return_field := "42" }
    limit := 10
    score_threshold := 1/2
    chat_service := some { url := "42", api_key := some "42", model := some "42" }
    embedding_service := none }

/-- The configuration `main` builds in `tidb` mode under `envD` with no
flags: the defaulted fields take their defaults. -/
def cfgD : AgenticSearchConfig :=
  { qdrant_config := none
    tidb_config := some
      { database := "db"
        table_name := "42"
        pool := Pool.new
          { ip_or_hostname := some "h", tcp_port := 4000, user := some "u",
            pass := some "pw", db_name := some "db", ssl_ca := some "42",
            init := ["SET NAMES utf8mb4"] }
        search_field := "content"
        return_field := "*" }
    limit := 10
    score_threshold := 1/2
    chat_service := some { url := "42", api_key := some "42", model := some "42" }
    embedding_service := none }

/-- A full `Args` value for the `qdrant` subcommand with no flags. -/
def argsQ0 : Args :=
  { socket_addr := "127.0.0.1:8009", transport := .streamHttp,
    search_mode := .qdrant none none 10 (1/2) none }

example : parse_tidb_conn_str "mysql://user:pw@host.db:4000/mydb" =
    some ("user", "pw", "host.db", "4000", "mydb") := by decide
example : parse_tidb_conn_str "mysql://user:pw@host:4000" = none := by decide
example : parse_tidb_conn_str "mysql://u:p@h:1/a\nb" = none := by decide
example : parse_tidb_conn_str "mysql://u:p:q@h:12/d" =
    some ("u", "p:q", "h", "12", "d") := by decide
example : parseU16 "4000" = some 4000 := by decide
example : parseU16 "70000" = none := by decide
example : parseU16 "00080" = some 80 := by decide

/-! ### Characterization of the regex match -/

theorem dropLit_eq_some_iff : ∀ (l cs r : List Char), dropLit l cs = some r ↔ cs = l ++ r := by
  intro l
  induction l with
  | nil => intro cs r; simp [dropLit]
  | cons a l ih =>
    intro cs r
    cases cs with
    | nil => simp [dropLit]
    | cons c cs =>
      by_cases hc : c = a
      · subst hc; simp [dropLit, ih]
      · simp [dropLit, hc]

theorem takeWhile_middle (q : Char → Bool) (l : List Char) (x : Char) (r : List Char)
    (hl : ∀ c ∈ l, q c) (hx : q x = false) :
    (l ++ x :: r).takeWhile q = l ∧ (l ++ x :: r).dropWhile q = x :: r := by
  induction l with
  | nil =>
    constructor
    · simp [List.takeWhile_cons, hx]
    · simp [List.dropWhile_cons, hx]
  | cons a l ih =>
    have ha : q a = true := hl a (by simp)
    have ih' := ih (fun c hc => hl c (by simp [hc]))
    constructor
    · simpa [List.takeWhile_cons, ha] using ih'.1
    · simpa [List.dropWhile_cons, ha] using ih'.2

theorem munch1_eq_some_iff (q : Char → Bool) (stop : Char) (hstop : q stop = false)
    (cs t rest : List Char) :
    munch1 q stop cs = some (t, rest) ↔
      cs = t ++ stop :: rest ∧ t ≠ [] ∧ ∀ c ∈ t, q c := by
  constructor
  · intro hm
    unfold munch1 at hm
    cases e : cs.dropWhile q with
    | nil => rw [e] at hm; simp at hm
    | cons c rest' =>
      rw [e] at hm
      simp only at hm
      by_cases hcond : c = stop ∧ cs.takeWhile q ≠ []
      · rw [if_pos hcond] at hm
        obtain ⟨rfl, hne⟩ := hcond
        obtain ⟨ht, hr⟩ : cs.takeWhile q = t ∧ rest' = rest := by simpa using hm
        subst ht; subst hr
        refine ⟨?_, hne, fun c hc => List.mem_takeWhile_imp hc⟩
        conv_lhs => rw [← List.takeWhile_append_dropWhile (p := q) (l := cs)]
        rw [e]
      · rw [if_neg hcond] at hm; simp at hm
  · rintro ⟨rfl, ht, hq⟩
    obtain ⟨h1, h2⟩ := takeWhile_middle q t stop rest hq hstop
    unfold munch1
    rw [h2, h1]
    simp [ht]

theorem connMatchList_eq_some_iff (cs u p h po d : List Char) :
    connMatchList cs = some (u, p, h, po, d) ↔
      cs = "mysql://".data ++ (u ++ (':' :: (p ++ ('@' :: (h ++ (':' :: (po ++ ('/' :: d)))))))) ∧
      u ≠ [] ∧ (∀ c ∈ u, c ≠ ':') ∧
      p ≠ [] ∧ (∀ c ∈ p, c ≠ '@') ∧
      h ≠ [] ∧ (∀ c ∈ h, c ≠ ':' ∧ c ≠ '/') ∧
      po ≠ [] ∧ (∀ c ∈ po, isNd c) ∧
      d ≠ [] ∧ (∀ c ∈ d, c ≠ '\n') := by
  constructor
  · intro hm
    unfold connMatchList at hm
    cases e0 : dropLit ("mysql://".data) cs with
    | none => rw [e0] at hm; simp at hm
    | some r0 =>
      rw [e0] at hm
      simp only at hm
      cases e1 : munch1 (fun c => c != ':') ':' r0 with
      | none => rw [e1] at hm; simp at hm
      | some ur1 =>
        obtain ⟨u', r1⟩ := ur1
        rw [e1] at hm
        simp only at hm
        cases e2 : munch1 (fun c => c != '@') '@' r1 with
        | none => rw [e2] at hm; simp at hm
        | some pr2 =>
          obtain ⟨p', r2⟩ := pr2
          rw [e2] at hm
          simp only at hm
          cases e3 : munch1 (fun c => c != ':' && c != '/') ':' r2 with
          | none => rw [e3] at hm; simp at hm
          | some hr3 =>
            obtain ⟨h', r3⟩ := hr3
            rw [e3] at hm
            simp only at hm
            cases e4 : munch1 isNd '/' r3 with
            | none => rw [e4] at hm; simp at hm
            | some por4 =>
              obtain ⟨po', r4⟩ := por4
              rw [e4] at hm
              simp only at hm
              by_cases hcond : r4 ≠ [] ∧ ∀ c ∈ r4, c ≠ '\n'
              · rw [if_pos hcond] at hm
                obtain ⟨rfl, rfl, rfl, rfl, rfl⟩ :
                    u' = u ∧ p' = p ∧ h' = h ∧ po' = po ∧ r4 = d := by
                  simpa using hm
                have hc0 := (dropLit_eq_some_iff _ _ _).mp e0
                obtain ⟨hr0, hu1, hu2⟩ :=
                  (munch1_eq_some_iff _ ':' (by decide) _ _ _).mp e1
                obtain ⟨hr1, hp1, hp2⟩ :=
                  (munch1_eq_some_iff _ '@' (by decide) _ _ _).mp e2
                obtain ⟨hr2, hh1, hh2⟩ :=
                  (munch1_eq_some_iff _ ':' (by decide) _ _ _).mp e3
                obtain ⟨hr3eq, hpo1, hpo2⟩ :=
                  (munch1_eq_some_iff _ '/' (by decide) _ _ _).mp e4
                refine ⟨?_, hu1, ?_, hp1, ?_, hh1, ?_, hpo1, hpo2, hcond.1, hcond.2⟩
                · rw [hc0, hr0, hr1, hr2, hr3eq]
                · intro c hc
                  have := hu2 c hc
                  simpa using this
                · intro c hc
                  have := hp2 c hc
                  simpa using this
                · intro c hc
                  have := hh2 c hc
                  simpa [Bool.and_eq_true] using this
              · rw [if_neg hcond] at hm; simp at hm
  · rintro ⟨rfl, hu1, hu2, hp1, hp2, hh1, hh2, hpo1, hpo2, hd1, hd2⟩
    unfold connMatchList
    rw [(dropLit_eq_some_iff ("mysql://".data) _ _).mpr rfl]
    simp only
    rw [(munch1_eq_some_iff (fun c => c != ':') ':' (by decide) _ u _).mpr
      ⟨rfl, hu1, fun c hc => by simpa using hu2 c hc⟩]
    simp only
    rw [(munch1_eq_some_iff (fun c => c != '@') '@' (by decide) _ p _).mpr
      ⟨rfl, hp1, fun c hc => by simpa using hp2 c hc⟩]
    simp only
    rw [(munch1_eq_some_iff (fun c => c != ':' && c != '/') ':' (by decide) _ h _).mpr
      ⟨rfl, hh1, fun c hc => by simpa [Bool.and_eq_true] using hh2 c hc⟩]
    simp only
    rw [(munch1_eq_some_iff isNd '/' (by decide) _ po _).mpr
      ⟨rfl, hpo1, hpo2⟩]
    have hnd : '\n' ∉ d := fun hmem => hd2 _ hmem rfl
    simp [hd1, hd2, hnd]

/-- C8 (amended): `parse_tidb_conn_str` returns
`some (username, password, host, port, database)` exactly when its input is
`mysql://<USERNAME>:<PASSWORD>@<HOST>:<PORT>/<DATABASE>` with USERNAME
non-empty without `:`, PASSWORD non-empty without `@`, HOST non-empty
without `:` or `/`, PORT a non-empty string of Unicode decimal digits
(category `Nd`, the regex class `\d`), and DATABASE non-empty and
containing no newline character; the returned components are the exact
corresponding substrings, and every non-matching input yields `none`. -/
theorem parse_tidb_conn_str_eq_some_iff (s u p h po d : String) :
    parse_tidb_conn_str s = some (u, p, h, po, d) ↔
      s = "mysql://" ++ u ++ ":" ++ p ++ "@" ++ h ++ ":" ++ po ++ "/" ++ d ∧
      u ≠ "" ∧ (∀ c ∈ u.data, c ≠ ':') ∧
      p ≠ "" ∧ (∀ c ∈ p.data, c ≠ '@') ∧
      h ≠ "" ∧ (∀ c ∈ h.data, c ≠ ':' ∧ c ≠ '/') ∧
      po ≠ "" ∧ (∀ c ∈ po.data, isNd c) ∧
      d ≠ "" ∧ (∀ c ∈ d.data, c ≠ '\n') := by
  obtain ⟨cs⟩ := s; obtain ⟨cu⟩ := u; obtain ⟨cp⟩ := p; obtain ⟨ch⟩ := h
  obtain ⟨cpo⟩ := po; obtain ⟨cd⟩ := d
  have hstep : parse_tidb_conn_str ⟨cs⟩ = some (⟨cu⟩, ⟨cp⟩, ⟨ch⟩, ⟨cpo⟩, ⟨cd⟩) ↔
      connMatchList cs = some (cu, cp, ch, cpo, cd) := by
    unfold parse_tidb_conn_str
    cases e : connMatchList cs with
    | none => simp [e]
    | some t =>
      obtain ⟨a, b, c2, d2, e2⟩ := t
      simp [e, String.ext_iff]
  rw [hstep, connMatchList_eq_some_iff]
  have hemp : ("" : String).data = [] := rfl
  simp only [ne_eq, String.ext_iff, String.data_append, hemp,
    show (":" : String).data = [':'] from rfl,
    show ("@" : String).data = ['@'] from rfl,
    show ("/" : String).data = ['/'] from rfl,
    List.append_assoc, List.singleton_append, List.cons_append, List.nil_append]

theorem parseU16List_of_digits (cs : List Char) (h1 : cs ≠ [])
    (h2 : ∀ c ∈ cs, c.isDigit) :
    parseU16List cs = if digitsVal cs ≤ 65535 then some (digitsVal cs) else none := by
  cases cs with
  | nil => exact absurd rfl h1
  | cons c rest =>
    have hc : c.isDigit = true := h2 c (by simp)
    have hcp : c ≠ '+' := by rintro rfl; exact absurd hc (by decide)
    simp only [parseU16List, List.head?_cons, Option.some.injEq]
    rw [if_neg hcp, if_pos ⟨h1, List.all_eq_true.mpr h2⟩]

/-- On a non-empty run of Unicode decimal digits (which is what the regex
guarantees for the port group), `u16` parsing succeeds exactly when the
run is all ASCII digits and its decimal value fits in 16 bits. -/
theorem parseU16List_of_ndDigits (cs : List Char) (h1 : cs ≠ [])
    (h2 : ∀ c ∈ cs, isNd c) :
    parseU16List cs =
      if cs.all Char.isDigit = true ∧ digitsVal cs ≤ 65535
      then some (digitsVal cs) else none := by
  cases cs with
  | nil => exact absurd rfl h1
  | cons c rest =>
    have hc : isNd c = true := h2 c (by simp)
    have hcp : c ≠ '+' := by rintro rfl; exact absurd hc (by decide)
    simp only [parseU16List, List.head?_cons, Option.some.injEq]
    rw [if_neg hcp]
    by_cases hall : (c :: rest).all Char.isDigit = true
    · rw [if_pos ⟨h1, hall⟩]
      by_cases hle : digitsVal (c :: rest) ≤ 65535
      · rw [if_pos hle, if_pos ⟨hall, hle⟩]
      · rw [if_neg hle, if_neg (fun hx => hle hx.2)]
    · rw [if_neg (fun hx => hall hx.2), if_neg (fun hx => hall hx.1)]

/-! ### Characterization of the configuration construction, one lemma per
search mode -/

theorem mk_qdrant_eq_ok_iff (env : Env) (qc qpf : Option String) (lim : Nat) (st : Rat)
    (esb : Option String) (cfg : AgenticSearchConfig) :
    mkSearchConfig env (.qdrant qc qpf lim st esb) = .ok cfg ↔
      ∃ coll pf eurl,
        resolveRequired (env "QDRANT_COLLECTION") qc qdrantCollectionErr = .ok coll ∧
        resolveRequired (env "QDRANT_PAYLOAD_FIELD") qpf qdrantPayloadFieldErr = .ok pf ∧
        resolveRequired (env "EMBEDDING_SERVICE_BASE_URL") esb embeddingServiceBaseUrlErr = .ok eurl ∧
        cfg = { qdrant_config := some
                  { api_key := env "QDRANT_API_KEY"
                    base_url := (env "QDRANT_BASE_URL").getD DEFAULT_QDRANT_BASE_URL
                    collection := coll
                    payload_source := pf }
                tidb_config := none
                limit := lim
                score_threshold := st
                chat_service := none
                embedding_service := some
                  { url := eurl
                    api_key := env "EMBEDDING_SERVICE_API_KEY"
                    model := env "EMBEDDING_SERVICE_MODEL" } } := by
  unfold mkSearchConfig
  cases h1 : resolveRequired (env "QDRANT_COLLECTION") qc qdrantCollectionErr with
  | error e => simp [h1]
  | ok coll =>
    simp only [h1]
    cases h2 : resolveRequired (env "QDRANT_PAYLOAD_FIELD") qpf qdrantPayloadFieldErr with
    | error e => simp [h2]
    | ok pf =>
      simp only [h2]
      cases h3 : resolveRequired (env "EMBEDDING_SERVICE_BASE_URL") esb embeddingServiceBaseUrlErr with
      | error e => simp [h3]
      | ok eurl => simp [h3, eq_comm]

theorem mk_tidb_eq_ok_iff (env : Env) (tca ttn tsf trf : Option String) (lim : Nat)
    (st : Rat) (tcu : Option String) (cfg : AgenticSearchConfig) :
    mkSearchConfig env (.tidb tca ttn tsf trf lim st tcu) = .ok cfg ↔
      ∃ ca tn conn username password host portStr database port curl,
        resolveRequired (env "TIDB_SSL_CA") tca tidbSslCaErr = .ok ca ∧
        resolveRequired (env "TIDB_TABLE_NAME") ttn tidbTableNameErr = .ok tn ∧
        env "TIDB_CONNECTION" = some conn ∧
        parse_tidb_conn_str conn = some (username, password, host, portStr, database) ∧
        parseU16 portStr = some port ∧
        resolveRequired (env "CHAT_SERVICE_BASE_URL") tcu chatServiceBaseUrlErr = .ok curl ∧
        cfg = { qdrant_config := none
                tidb_config := some
                  { database := database
                    table_name := tn
                    pool := Pool.new
                      { ip_or_hostname := some host
                        tcp_port := port
                        user := some username
                        pass := some password
                        db_name := some database
                        ssl_ca := some ca
                        init := ["SET NAMES utf8mb4"] }
                    search_field := resolveDefault (env "TIDB_SEARCH_FIELD") tsf "content"
                    return_field := resolveDefault (env "TIDB_RETURN_FIELD") trf "*" }
                limit := lim
                score_threshold := st
                chat_service := some
                  { url := curl
                    api_key := env "CHAT_SERVICE_API_KEY"
                    model := env "CHAT_SERVICE_MODEL" }
                embedding_service := none } := by
  unfold mkSearchConfig
  cases h1 : resolveRequired (env "TIDB_SSL_CA") tca tidbSslCaErr with
  | error e => simp [h1]
  | ok ca =>
    simp only [h1]
    cases h2 : resolveRequired (env "TIDB_TABLE_NAME") ttn tidbTableNameErr with
    | error e => simp [h2]
    | ok tn =>
      simp only [h2]
      cases h3 : env "TIDB_CONNECTION" with
      | none => simp [h3]
      | some conn =>
        simp only [h3]
        cases h4 : parse_tidb_conn_str conn with
        | none => simp [h4]
        | some t =>
          obtain ⟨username, password, host, portStr, database⟩ := t
          dsimp only
          cases h5 : parseU16 portStr with
          | none =>
            dsimp only
            constructor
            · intro hcontra; exact Except.noConfusion hcontra
            · rintro ⟨ca', tn', conn', u', p', h', po', d', port', curl',
                e1, e2, e3, e4, e5, e6, hcfg⟩
              obtain rfl : conn = conn' := by simpa using e3
              rw [h4] at e4
              obtain ⟨rfl, rfl, rfl, rfl, rfl⟩ :
                  username = u' ∧ password = p' ∧ host = h' ∧ portStr = po' ∧ database = d' := by
                simpa using e4
              rw [h5] at e5
              exact Option.noConfusion e5
          | some port =>
            dsimp only
            cases h6 : resolveRequired (env "CHAT_SERVICE_BASE_URL") tcu chatServiceBaseUrlErr with
            | error e =>
              dsimp only
              constructor
              · intro hcontra; exact Except.noConfusion hcontra
              · rintro ⟨ca', tn', conn', u', p', h', po', d', port', curl',
                  e1, e2, e3, e4, e5, e6, hcfg⟩
                exact Except.noConfusion e6
            | ok curl =>
              dsimp only
              constructor
              · intro hcfg
                injection hcfg with hc2
                subst hc2
                exact ⟨ca, tn, conn, username, password, host, portStr, database, port, curl,
                  rfl, rfl, rfl, h4, h5, rfl, rfl⟩
              · rintro ⟨ca', tn', conn', u', p', h', po', d', port', curl',
                  e1, e2, e3, e4, e5, e6, rfl⟩
                obtain rfl : ca = ca' := by simpa using e1
                obtain rfl : tn = tn' := by simpa using e2
                obtain rfl : conn = conn' := by simpa using e3
                rw [h4] at e4
                obtain ⟨rfl, rfl, rfl, rfl, rfl⟩ :
                    username = u' ∧ password = p' ∧ host = h' ∧ portStr = po' ∧ database = d' := by
                  simpa using e4
                rw [h5] at e5
                obtain rfl : port = port' := by simpa using e5
                obtain rfl : curl = curl' := by simpa using e6
                rfl

theorem mk_search_eq_ok_iff (env : Env) (qc qpf tca ttn tsf trf : Option String)
    (lim : Nat) (st : Rat) (tcu esb : Option String) (cfg : AgenticSearchConfig) :
    mkSearchConfig env (.search qc qpf tca ttn tsf trf lim st tcu esb) = .ok cfg ↔
      ∃ coll pf ca tn conn username password host portStr database port curl eurl,
        resolveRequired (env "QDRANT_COLLECTION") qc qdrantCollectionErr = .ok coll ∧
        resolveRequired (env "QDRANT_PAYLOAD_FIELD") qpf qdrantPayloadFieldErr = .ok pf ∧
        resolveRequired (env "TIDB_SSL_CA") tca tidbSslCaErr = .ok ca ∧
        resolveRequired (env "TIDB_TABLE_NAME") ttn tidbTableNameErr = .ok tn ∧
        env "TIDB_CONNECTION" = some conn ∧
        parse_tidb_conn_str conn = some (username, password, host, portStr, database) ∧
        parseU16 portStr = some port ∧
        resolveRequired (env "CHAT_SERVICE_BASE_URL") tcu chatServiceBaseUrlErr = .ok curl ∧
        resolveRequired (env "EMBEDDING_SERVICE_BASE_URL") esb embeddingServiceBaseUrlErr = .ok eurl ∧
        cfg = { qdrant_config := some
                  { api_key := env "QDRANT_API_KEY"
                    base_url := (env "QDRANT_BASE_URL").getD DEFAULT_QDRANT_BASE_URL
                    collection := coll
                    payload_source := pf }
                tidb_config := some
                  { database := database
                    table_name := tn
                    pool := Pool.new
                      { ip_or_hostname := some host
                        tcp_port := port
                        user := some username
                        pass := some password
                        db_name := some database
                        ssl_ca := some ca
                        init := [] }
                    search_field := resolveDefault (env "TIDB_SEARCH_FIELD") tsf "content"
                    return_field := resolveDefault (env "TIDB_RETURN_FIELD") trf "*" }
                limit := lim
                score_threshold := st
                chat_service := some
                  { url := curl
                    api_key := env "CHAT_SERVICE_API_KEY"
                    model := env "CHAT_SERVICE_MODEL" }
                embedding_service := some
                  { url := eurl
                    api_key := env "EMBEDDING_SERVICE_API_KEY"
                    model := env "EMBEDDING_SERVICE_MODEL" } } := by
  unfold mkSearchConfig
  cases h1 : resolveRequired (env "QDRANT_COLLECTION") qc qdrantCollectionErr with
  | error e => simp [h1]
  | ok coll =>
    simp only [h1]
    cases h2 : resolveRequired (env "QDRANT_PAYLOAD_FIELD") qpf qdrantPayloadFieldErr with
    | error e => simp [h2]
    | ok pf =>
      simp only [h2]
      cases h3 : resolveRequired (env "TIDB_SSL_CA") tca tidbSslCaErr with
      | error e => simp [h3]
      | ok ca =>
        simp only [h3]
        cases h4 : resolveRequired (env "TIDB_TABLE_NAME") ttn tidbTableNameErr with
        | error e => simp [h4]
        | ok tn =>
          simp only [h4]
          cases h5 : env "TIDB_CONNECTION" with
          | none => simp [h5]
          | some conn =>
            simp only [h5]
            cases h6 : parse_tidb_conn_str conn with
            | none => simp [h6]
            | some t =>
              obtain ⟨username, password, host, portStr, database⟩ := t
              dsimp only
              cases h7 : parseU16 portStr with
              | none =>
                dsimp only
                constructor
                · intro hcontra; exact Except.noConfusion hcontra
                · rintro ⟨coll', pf', ca', tn', conn', u', p', h', po', d', port', curl', eurl',
                    e1, e2, e3, e4, e5, e6, e7, e8, e9, hcfg⟩
                  obtain rfl : conn = conn' := by simpa using e5
                  rw [h6] at e6
                  obtain ⟨rfl, rfl, rfl, rfl, rfl⟩ :
                      username = u' ∧ password = p' ∧ host = h' ∧ portStr = po' ∧ database = d' := by
                    simpa using e6
                  rw [h7] at e7
                  exact Option.noConfusion e7
              | some port =>
                dsimp only
                cases h8 : resolveRequired (env "CHAT_SERVICE_BASE_URL") tcu chatServiceBaseUrlErr with
                | error e =>
                  dsimp only
                  constructor
                  · intro hcontra; exact Except.noConfusion hcontra
                  · rintro ⟨coll', pf', ca', tn', conn', u', p', h', po', d', port', curl', eurl',
                      e1, e2, e3, e4, e5, e6, e7, e8, e9, hcfg⟩
                    exact Except.noConfusion e8
                | ok curl =>
                  dsimp only
                  cases h9 : resolveRequired (env "EMBEDDING_SERVICE_BASE_URL") esb embeddingServiceBaseUrlErr with
                  | error e =>
                    dsimp only
                    constructor
                    · intro hcontra; exact Except.noConfusion hcontra
                    · rintro ⟨coll', pf', ca', tn', conn', u', p', h', po', d', port', curl', eurl',
                        e1, e2, e3, e4, e5, e6, e7, e8, e9, hcfg⟩
                      exact Except.noConfusion e9
                  | ok eurl =>
                    dsimp only
                    constructor
                    · intro hcfg
                      injection hcfg with hc2
                      subst hc2
                      exact ⟨coll, pf, ca, tn, conn, username, password, host, portStr, database,
                        port, curl, eurl, rfl, rfl, rfl, rfl, rfl, h6, h7, rfl, rfl, rfl⟩
                    · rintro ⟨coll', pf', ca', tn', conn', u', p', h', po', d', port', curl', eurl',
                        e1, e2, e3, e4, e5, e6, e7, e8, e9, rfl⟩
                      obtain rfl : coll = coll' := by simpa using e1
                      obtain rfl : pf = pf' := by simpa using e2
                      obtain rfl : ca = ca' := by simpa using e3
                      obtain rfl : tn = tn' := by simpa using e4
                      obtain rfl : conn = conn' := by simpa using e5
                      rw [h6] at e6
                      obtain ⟨rfl, rfl, rfl, rfl, rfl⟩ :
                          username = u' ∧ password = p' ∧ host = h' ∧ portStr = po' ∧ database = d' := by
                        simpa using e6
                      rw [h7] at e7
                      obtain rfl : port = port' := by simpa using e7
                      obtain rfl : curl = curl' := by simpa using e8
                      obtain rfl : eurl = eurl' := by simpa using e9
                      rfl

/-! ### Small bridging lemmas -/

theorem isOkE_true_iff {α : Type} (x : Except String α) :
    isOkE x = true ↔ ∃ a, x = .ok a := by
  cases x <;> simp [isOkE]

theorem runMain_eq_ok_iff (env : Env) (args : Args) (srv : AgenticSearchServer) :
    runMain env args = .ok srv ↔
      ∃ cfg, mkSearchConfig env args.search_mode = .ok cfg ∧
        srv = servedServer args.transport cfg := by
  unfold runMain
  cases e : mkSearchConfig env args.search_mode with
  | error e2 => simp
  | ok cfg => simp [eq_comm]

theorem parse_ok_parts (conn u p h po d : String)
    (hp : parse_tidb_conn_str conn = some (u, p, h, po, d)) :
    po.data ≠ [] ∧ ∀ c ∈ po.data, isNd c := by
  unfold parse_tidb_conn_str at hp
  cases e : connMatchList conn.data with
  | none => rw [e] at hp; exact Option.noConfusion hp
  | some t =>
    obtain ⟨u', p', h', po', d'⟩ := t
    rw [e] at hp
    dsimp only at hp
    obtain ⟨-, -, -, rfl, -⟩ :
        String.mk u' = u ∧ String.mk p' = p ∧ String.mk h' = h ∧
          String.mk po' = po ∧ String.mk d' = d := by
      simpa using hp
    have hc := (connMatchList_eq_some_iff _ _ _ _ _ _).mp e
    exact ⟨hc.2.2.2.2.2.2.2.1, hc.2.2.2.2.2.2.2.2.1⟩

theorem resolveRequired_ok_firstOf (e a : Option String) (m v : String) :
    resolveRequired e a m = .ok v ↔ firstOf e a = some v := by
  cases e <;> cases a <;> simp [resolveRequired, firstOf]

theorem eraseDefaulted_other (env : Env) (k : String)
    (h : ¬(k = "TIDB_SEARCH_FIELD" ∨ k = "TIDB_RETURN_FIELD" ∨ k = "QDRANT_BASE_URL")) :
    eraseDefaulted env k = env k :=
  if_neg h

/-! ### The claims -/

/-- C1: every `AgenticSearchConfig` that `main` constructs — in any of the
three search modes — satisfies the configuration invariant: at least one of
`qdrant_config` / `tidb_config` is `some`; if `qdrant_config` is `some` then
`embedding_service` is `some`; if `tidb_config` is `some` then
`chat_service` is `some`. -/
theorem constructed_config_invariant (env : Env) (mode : SearchMode)
    (cfg : AgenticSearchConfig) (hok : mkSearchConfig env mode = .ok cfg) :
    (cfg.qdrant_config.isSome = true ∨ cfg.tidb_config.isSome = true) ∧
    (cfg.qdrant_config.isSome = true → cfg.embedding_service.isSome = true) ∧
    (cfg.tidb_config.isSome = true → cfg.chat_service.isSome = true) := by
  cases mode with
  | qdrant qc qpf lim st esb =>
    obtain ⟨coll, pf, eurl, -, -, -, rfl⟩ :=
      (mk_qdrant_eq_ok_iff env qc qpf lim st esb cfg).mp hok
    simp
  | tidb tca ttn tsf trf lim st tcu =>
    obtain ⟨ca, tn, conn, u2, p2, h2, po2, d2, port, curl, -, -, -, -, -, -, rfl⟩ :=
      (mk_tidb_eq_ok_iff env tca ttn tsf trf lim st tcu cfg).mp hok
    simp
  | search qc qpf tca ttn tsf trf lim st tcu esb =>
    obtain ⟨coll, pf, ca, tn, conn, u2, p2, h2, po2, d2, port, curl, eurl,
      -, -, -, -, -, -, -, -, -, rfl⟩ :=
      (mk_search_eq_ok_iff env qc qpf tca ttn tsf trf lim st tcu esb cfg).mp hok
    simp

/-- Witness for C1 at a concrete environment and command line. -/
theorem constructed_config_invariant_witness :
    (cfgQ42.qdrant_config.isSome = true ∨ cfgQ42.tidb_config.isSome = true) ∧
    (cfgQ42.qdrant_config.isSome = true → cfgQ42.embedding_service.isSome = true) ∧
    (cfgQ42.tidb_config.isSome = true → cfgQ42.chat_service.isSome = true) :=
  constructed_config_invariant envAll42 cliQ0.parseArgs cfgQ42 rfl

/-- C5: the configuration constructed in vector-only (`qdrant`) mode has
`chat_service = none`; the configurations constructed in lexical-only
(`tidb`) and combined (`search`) mode always have `chat_service = some`. -/
theorem chat_service_presence_by_mode :
    (∀ env qc qpf lim st esb cfg,
       mkSearchConfig env (.qdrant qc qpf lim st esb) = .ok cfg →
       cfg.chat_service = none) ∧
    (∀ env tca ttn tsf trf lim st tcu cfg,
       mkSearchConfig env (.tidb tca ttn tsf trf lim st tcu) = .ok cfg →
       cfg.chat_service.isSome = true) ∧
    (∀ env qc qpf tca ttn tsf trf lim st tcu esb cfg,
       mkSearchConfig env (.search qc qpf tca ttn tsf trf lim st tcu esb) = .ok cfg →
       cfg.chat_service.isSome = true) := by
  refine ⟨?_, ?_, ?_⟩
  · intro env qc qpf lim st esb cfg hok
    obtain ⟨coll, pf, eurl, -, -, -, rfl⟩ :=
      (mk_qdrant_eq_ok_iff env qc qpf lim st esb cfg).mp hok
    rfl
  · intro env tca ttn tsf trf lim st tcu cfg hok
    obtain ⟨ca, tn, conn, u2, p2, h2, po2, d2, port, curl, -, -, -, -, -, -, rfl⟩ :=
      (mk_tidb_eq_ok_iff env tca ttn tsf trf lim st tcu cfg).mp hok
    rfl
  · intro env qc qpf tca ttn tsf trf lim st tcu esb cfg hok
    obtain ⟨coll, pf, ca, tn, conn, u2, p2, h2, po2, d2, port, curl, eurl,
      -, -, -, -, -, -, -, -, -, rfl⟩ :=
      (mk_search_eq_ok_iff env qc qpf tca ttn tsf trf lim st tcu esb cfg).mp hok
    rfl

/-- Witness for C5 at concrete environments. -/
theorem chat_service_presence_by_mode_witness :
    cfgQ42.chat_service = none ∧ cfgT.chat_service.isSome = true :=
  ⟨chat_service_presence_by_mode.1 envAll42 none none 10 (1/2) none cfgQ42 rfl,
   chat_service_presence_by_mode.2.1 envT none none none none 10 (1/2) none cfgT rfl⟩

/-- C7: both transport branches of `main` construct the served tool from an
identical clone of the same `AgenticSearchConfig`, so the two transports
expose the same tool contract. -/
theorem transports_equivalent (cfg : AgenticSearchConfig) :
    servedServer TransportType.sse cfg = servedServer TransportType.streamHttp cfg :=
  rfl

/-- C3: when a required configuration value is missing from both the
environment and the command line (`QDRANT_COLLECTION`/`--qdrant-collection`
in vector mode; the `TIDB_CONNECTION` environment variable in lexical and
combined modes), `main` fails at startup with a configuration error, and a
server value is only ever constructed from a fully resolved configuration,
so such a failure cannot occur at request time. -/
theorem missing_required_config_fails_startup :
    (∀ env addr t qpf lim st esb, env "QDRANT_COLLECTION" = none →
       runMain env (Args.mk addr t (.qdrant none qpf lim st esb)) =
         .error qdrantCollectionErr) ∧
    (∀ env addr t tca ttn tsf trf lim st tcu, env "TIDB_CONNECTION" = none →
       isOkE (runMain env (Args.mk addr t (.tidb tca ttn tsf trf lim st tcu))) = false) ∧
    (∀ env addr t qc qpf tca ttn tsf trf lim st tcu esb, env "TIDB_CONNECTION" = none →
       isOkE (runMain env (Args.mk addr t (.search qc qpf tca ttn tsf trf lim st tcu esb))) =
         false) ∧
    (∀ env args srv, runMain env args = .ok srv →
       mkSearchConfig env args.search_mode = .ok srv.config ∧
       srv = servedServer args.transport srv.config) := by
  refine ⟨?_, ?_, ?_, ?_⟩
  · intro env addr t qpf lim st esb h
    have hres : resolveRequired (env "QDRANT_COLLECTION") none qdrantCollectionErr =
        .error qdrantCollectionErr := by rw [h]; rfl
    simp [runMain, mkSearchConfig, hres]
  · intro env addr t tca ttn tsf trf lim st tcu h
    cases hr : runMain env (Args.mk addr t (.tidb tca ttn tsf trf lim st tcu)) with
    | error e => rfl
    | ok srv =>
      obtain ⟨cfg, hcfg, -⟩ := (runMain_eq_ok_iff _ _ _).mp hr
      obtain ⟨ca, tn, conn, u2, p2, h2, po2, d2, port, curl, -, -, hconn, -, -, -, -⟩ :=
        (mk_tidb_eq_ok_iff env tca ttn tsf trf lim st tcu cfg).mp hcfg
      rw [h] at hconn
      exact Option.noConfusion hconn
  · intro env addr t qc qpf tca ttn tsf trf lim st tcu esb h
    cases hr : runMain env (Args.mk addr t (.search qc qpf tca ttn tsf trf lim st tcu esb)) with
    | error e => rfl
    | ok srv =>
      obtain ⟨cfg, hcfg, -⟩ := (runMain_eq_ok_iff _ _ _).mp hr
      obtain ⟨coll, pf, ca, tn, conn, u2, p2, h2, po2, d2, port, curl, eurl,
        -, -, -, -, hconn, -, -, -, -, -⟩ :=
        (mk_search_eq_ok_iff env qc qpf tca ttn tsf trf lim st tcu esb cfg).mp hcfg
      rw [h] at hconn
      exact Option.noConfusion hconn
  · intro env args srv h
    obtain ⟨cfg, hcfg, rfl⟩ := (runMain_eq_ok_iff _ _ _).mp h
    cases htr : args.transport <;>
      simp [servedServer, AgenticSearchServer.new, AgenticSearchConfig.clone, hcfg]

/-- Witness for C3: with an empty environment and no flags, vector mode
aborts with the collection error. -/
theorem missing_required_config_fails_startup_witness :
    runMain envNone argsQ0 = .error qdrantCollectionErr :=
  missing_required_config_fails_startup.1 envNone "127.0.0.1:8009"
    TransportType.streamHttp none 10 (1/2) none rfl

/-- C4: when the `--limit` and `--score-threshold` flags are absent (no
environment variable reads them), the constructed configuration has
`limit = 10` and `score_threshold = 0.5`, in every search mode. -/
theorem default_limit_and_threshold :
    (∀ env (c : QdrantCli) cfg, c.limit = none → c.score_threshold = none →
       mkSearchConfig env c.parseArgs = .ok cfg →
       cfg.limit = 10 ∧ cfg.score_threshold = 1/2) ∧
    (∀ env (c : TidbCli) cfg, c.limit = none → c.score_threshold = none →
       mkSearchConfig env c.parseArgs = .ok cfg →
       cfg.limit = 10 ∧ cfg.score_threshold = 1/2) ∧
    (∀ env (c : SearchCli) cfg, c.limit = none → c.score_threshold = none →
       mkSearchConfig env c.parseArgs = .ok cfg →
       cfg.limit = 10 ∧ cfg.score_threshold = 1/2) := by
  refine ⟨?_, ?_, ?_⟩
  · intro env c cfg hl hs hok
    simp only [QdrantCli.parseArgs] at hok
    obtain ⟨coll, pf, eurl, -, -, -, rfl⟩ :=
      (mk_qdrant_eq_ok_iff env _ _ _ _ _ cfg).mp hok
    simp [hl, hs]
  · intro env c cfg hl hs hok
    simp only [TidbCli.parseArgs] at hok
    obtain ⟨ca, tn, conn, u2, p2, h2, po2, d2, port, curl, -, -, -, -, -, -, rfl⟩ :=
      (mk_tidb_eq_ok_iff env _ _ _ _ _ _ _ cfg).mp hok
    simp [hl, hs]
  · intro env c cfg hl hs hok
    simp only [SearchCli.parseArgs] at hok
    obtain ⟨coll, pf, ca, tn, conn, u2, p2, h2, po2, d2, port, curl, eurl,
      -, -, -, -, -, -, -, -, -, rfl⟩ :=
      (mk_search_eq_ok_iff env _ _ _ _ _ _ _ _ _ _ cfg).mp hok
    simp [hl, hs]

/-- Witness for C4 at a concrete environment and a flagless command line. -/
theorem default_limit_and_threshold_witness :
    cfgQ42.limit = 10 ∧ cfgQ42.score_threshold = 1/2 :=
  default_limit_and_threshold.1 envAll42 cliQ0 cfgQ42 rfl rfl rfl

/-- C6: in lexical-only and combined modes, the `database` stored in the
`TiDBConfig` is the `<DATABASE>` component parsed from `TIDB_CONNECTION`,
and the connection pool is built against exactly the host, port, username,
password, and database parsed from that string. -/
theorem tidb_pool_from_connection_string :
    (∀ env tca ttn tsf trf lim st tcu cfg conn u p h po d,
       env "TIDB_CONNECTION" = some conn →
       parse_tidb_conn_str conn = some (u, p, h, po, d) →
       mkSearchConfig env (.tidb tca ttn tsf trf lim st tcu) = .ok cfg →
       cfg.tidb_config.map TiDBConfig.database = some d ∧
       cfg.tidb_config.map (fun tc => tc.pool.opts.ip_or_hostname) = some (some h) ∧
       cfg.tidb_config.map (fun tc => tc.pool.opts.user) = some (some u) ∧
       cfg.tidb_config.map (fun tc => tc.pool.opts.pass) = some (some p) ∧
       cfg.tidb_config.map (fun tc => tc.pool.opts.db_name) = some (some d) ∧
       cfg.tidb_config.map (fun tc => tc.pool.opts.tcp_port) = parseU16 po) ∧
    (∀ env qc qpf tca ttn tsf trf lim st tcu esb cfg conn u p h po d,
       env "TIDB_CONNECTION" = some conn →
       parse_tidb_conn_str conn = some (u, p, h, po, d) →
       mkSearchConfig env (.search qc qpf tca ttn tsf trf lim st tcu esb) = .ok cfg →
       cfg.tidb_config.map TiDBConfig.database = some d ∧
       cfg.tidb_config.map (fun tc => tc.pool.opts.ip_or_hostname) = some (some h) ∧
       cfg.tidb_config.map (fun tc => tc.pool.opts.user) = some (some u) ∧
       cfg.tidb_config.map (fun tc => tc.pool.opts.pass) = some (some p) ∧
       cfg.tidb_config.map (fun tc => tc.pool.opts.db_name) = some (some d) ∧
       cfg.tidb_config.map (fun tc => tc.pool.opts.tcp_port) = parseU16 po) := by
  constructor
  · intro env tca ttn tsf trf lim st tcu cfg conn u p h po d hconn hparse hok
    obtain ⟨ca, tn, conn2, u2, p2, h2, po2, d2, port, curl, -, -, e3, e4, e5, -, rfl⟩ :=
      (mk_tidb_eq_ok_iff env tca ttn tsf trf lim st tcu cfg).mp hok
    rw [hconn] at e3
    obtain rfl : conn = conn2 := by simpa using e3
    rw [hparse] at e4
    obtain ⟨rfl, rfl, rfl, rfl, rfl⟩ :
        u = u2 ∧ p = p2 ∧ h = h2 ∧ po = po2 ∧ d = d2 := by simpa using e4
    exact ⟨rfl, rfl, rfl, rfl, rfl, by rw [e5]; rfl⟩
  · intro env qc qpf tca ttn tsf trf lim st tcu esb cfg conn u p h po d hconn hparse hok
    obtain ⟨coll, pf, ca, tn, conn2, u2, p2, h2, po2, d2, port, curl, eurl,
      -, -, -, -, e5, e6, e7, -, -, rfl⟩ :=
      (mk_search_eq_ok_iff env qc qpf tca ttn tsf trf lim st tcu esb cfg).mp hok
    rw [hconn] at e5
    obtain rfl : conn = conn2 := by simpa using e5
    rw [hparse] at e6
    obtain ⟨rfl, rfl, rfl, rfl, rfl⟩ :
        u = u2 ∧ p = p2 ∧ h = h2 ∧ po = po2 ∧ d = d2 := by simpa using e6
    exact ⟨rfl, rfl, rfl, rfl, rfl, by rw [e7]; rfl⟩

/-- Witness for C6 at a concrete environment and connection string. -/
theorem tidb_pool_from_connection_string_witness :
    cfgT.tidb_config.map TiDBConfig.database = some "db" ∧
    cfgT.tidb_config.map (fun tc => tc.pool.opts.ip_or_hostname) = some (some "h") ∧
    cfgT.tidb_config.map (fun tc => tc.pool.opts.user) = some (some "u") ∧
    cfgT.tidb_config.map (fun tc => tc.pool.opts.pass) = some (some "pw") ∧
    cfgT.tidb_config.map (fun tc => tc.pool.opts.db_name) = some (some "db") ∧
    cfgT.tidb_config.map (fun tc => tc.pool.opts.tcp_port) = parseU16 "4000" :=
  tidb_pool_from_connection_string.1 envT none none none none 10 (1/2) none cfgT
    "mysql://u:pw@h:4000/db" "u" "pw" "h" "4000" "db" rfl rfl rfl

/-- C9: the lexical search field defaults to "content", the lexical return
field defaults to "*", and the vector-store base URL defaults to
`http://127.0.0.1:6333`, when neither environment variable nor flag
supplies them; and removing those three items (environment variables and
flags together) never changes whether startup succeeds. -/
theorem defaulted_items :
    (∀ env tca ttn lim st tcu cfg,
       env "TIDB_SEARCH_FIELD" = none → env "TIDB_RETURN_FIELD" = none →
       mkSearchConfig env (.tidb tca ttn none none lim st tcu) = .ok cfg →
       cfg.tidb_config.map TiDBConfig.search_field = some "content" ∧
       cfg.tidb_config.map TiDBConfig.return_field = some "*") ∧
    (∀ env qc qpf tca ttn lim st tcu esb cfg,
       env "TIDB_SEARCH_FIELD" = none → env "TIDB_RETURN_FIELD" = none →
       env "QDRANT_BASE_URL" = none →
       mkSearchConfig env (.search qc qpf tca ttn none none lim st tcu esb) = .ok cfg →
       cfg.tidb_config.map TiDBConfig.search_field = some "content" ∧
       cfg.tidb_config.map TiDBConfig.return_field = some "*" ∧
       cfg.qdrant_config.map QdrantConfig.base_url = some DEFAULT_QDRANT_BASE_URL) ∧
    (∀ env qc qpf lim st esb cfg,
       env "QDRANT_BASE_URL" = none →
       mkSearchConfig env (.qdrant qc qpf lim st esb) = .ok cfg →
       cfg.qdrant_config.map QdrantConfig.base_url = some DEFAULT_QDRANT_BASE_URL) ∧
    (∀ env tca ttn tsf trf lim st tcu,
       ((∃ cfg, mkSearchConfig (eraseDefaulted env) (.tidb tca ttn none none lim st tcu) = .ok cfg) ↔
        (∃ cfg, mkSearchConfig env (.tidb tca ttn tsf trf lim st tcu) = .ok cfg))) ∧
    (∀ env qc qpf lim st esb,
       ((∃ cfg, mkSearchConfig (eraseDefaulted env) (.qdrant qc qpf lim st esb) = .ok cfg) ↔
        (∃ cfg, mkSearchConfig env (.qdrant qc qpf lim st esb) = .ok cfg))) ∧
    (∀ env qc qpf tca ttn tsf trf lim st tcu esb,
       ((∃ cfg, mkSearchConfig (eraseDefaulted env)
            (.search qc qpf tca ttn none none lim st tcu esb) = .ok cfg) ↔
        (∃ cfg, mkSearchConfig env (.search qc qpf tca ttn tsf trf lim st tcu esb) = .ok cfg))) := by
  have hca : ∀ env : Env, eraseDefaulted env "TIDB_SSL_CA" = env "TIDB_SSL_CA" :=
    fun env => eraseDefaulted_other env _ (by decide)
  have htn : ∀ env : Env, eraseDefaulted env "TIDB_TABLE_NAME" = env "TIDB_TABLE_NAME" :=
    fun env => eraseDefaulted_other env _ (by decide)
  have hcn : ∀ env : Env, eraseDefaulted env "TIDB_CONNECTION" = env "TIDB_CONNECTION" :=
    fun env => eraseDefaulted_other env _ (by decide)
  have hcu : ∀ env : Env,
      eraseDefaulted env "CHAT_SERVICE_BASE_URL" = env "CHAT_SERVICE_BASE_URL" :=
    fun env => eraseDefaulted_other env _ (by decide)
  have hqc : ∀ env : Env, eraseDefaulted env "QDRANT_COLLECTION" = env "QDRANT_COLLECTION" :=
    fun env => eraseDefaulted_other env _ (by decide)
  have hqp : ∀ env : Env,
      eraseDefaulted env "QDRANT_PAYLOAD_FIELD" = env "QDRANT_PAYLOAD_FIELD" :=
    fun env => eraseDefaulted_other env _ (by decide)
  have heu : ∀ env : Env,
      eraseDefaulted env "EMBEDDING_SERVICE_BASE_URL" = env "EMBEDDING_SERVICE_BASE_URL" :=
    fun env => eraseDefaulted_other env _ (by decide)
  refine ⟨?_, ?_, ?_, ?_, ?_, ?_⟩
  · intro env tca ttn lim st tcu cfg hsf hrf hok
    obtain ⟨ca, tn, conn2, u2, p2, h2, po2, d2, port, curl, -, -, -, -, -, -, rfl⟩ :=
      (mk_tidb_eq_ok_iff env tca ttn none none lim st tcu cfg).mp hok
    constructor
    · simp [resolveDefault, hsf]
    · simp [resolveDefault, hrf]
  · intro env qc qpf tca ttn lim st tcu esb cfg hsf hrf hqb hok
    obtain ⟨coll, pf, ca, tn, conn2, u2, p2, h2, po2, d2, port, curl, eurl,
      -, -, -, -, -, -, -, -, -, rfl⟩ :=
      (mk_search_eq_ok_iff env qc qpf tca ttn none none lim st tcu esb cfg).mp hok
    refine ⟨?_, ?_, ?_⟩
    · simp [resolveDefault, hsf]
    · simp [resolveDefault, hrf]
    · simp [hqb]
  · intro env qc qpf lim st esb cfg hqb hok
    obtain ⟨coll, pf, eurl, -, -, -, rfl⟩ :=
      (mk_qdrant_eq_ok_iff env qc qpf lim st esb cfg).mp hok
    simp [hqb]
  · intro env tca ttn tsf trf lim st tcu
    constructor
    · rintro ⟨cfg, hok⟩
      obtain ⟨ca, tn, conn2, u2, p2, h2, po2, d2, port, curl, e1, e2, e3, e4, e5, e6, -⟩ :=
        (mk_tidb_eq_ok_iff _ tca ttn none none lim st tcu cfg).mp hok
      rw [hca] at e1; rw [htn] at e2; rw [hcn] at e3; rw [hcu] at e6
      exact ⟨_, (mk_tidb_eq_ok_iff env tca ttn tsf trf lim st tcu _).mpr
        ⟨ca, tn, conn2, u2, p2, h2, po2, d2, port, curl, e1, e2, e3, e4, e5, e6, rfl⟩⟩
    · rintro ⟨cfg, hok⟩
      obtain ⟨ca, tn, conn2, u2, p2, h2, po2, d2, port, curl, e1, e2, e3, e4, e5, e6, -⟩ :=
        (mk_tidb_eq_ok_iff env tca ttn tsf trf lim st tcu cfg).mp hok
      rw [← hca env] at e1; rw [← htn env] at e2; rw [← hcn env] at e3; rw [← hcu env] at e6
      exact ⟨_, (mk_tidb_eq_ok_iff _ tca ttn none none lim st tcu _).mpr
        ⟨ca, tn, conn2, u2, p2, h2, po2, d2, port, curl, e1, e2, e3, e4, e5, e6, rfl⟩⟩
  · intro env qc qpf lim st esb
    constructor
    · rintro ⟨cfg, hok⟩
      obtain ⟨coll, pf, eurl, e1, e2, e3, -⟩ :=
        (mk_qdrant_eq_ok_iff _ qc qpf lim st esb cfg).mp hok
      rw [hqc] at e1; rw [hqp] at e2; rw [heu] at e3
      exact ⟨_, (mk_qdrant_eq_ok_iff env qc qpf lim st esb _).mpr ⟨coll, pf, eurl, e1, e2, e3, rfl⟩⟩
    · rintro ⟨cfg, hok⟩
      obtain ⟨coll, pf, eurl, e1, e2, e3, -⟩ :=
        (mk_qdrant_eq_ok_iff env qc qpf lim st esb cfg).mp hok
      rw [← hqc env] at e1; rw [← hqp env] at e2; rw [← heu env] at e3
      exact ⟨_, (mk_qdrant_eq_ok_iff _ qc qpf lim st esb _).mpr ⟨coll, pf, eurl, e1, e2, e3, rfl⟩⟩
  · intro env qc qpf tca ttn tsf trf lim st tcu esb
    constructor
    · rintro ⟨cfg, hok⟩
      obtain ⟨coll, pf, ca, tn, conn2, u2, p2, h2, po2, d2, port, curl, eurl,
        e1, e2, e3, e4, e5, e6, e7, e8, e9, -⟩ :=
        (mk_search_eq_ok_iff _ qc qpf tca ttn none none lim st tcu esb cfg).mp hok
      rw [hqc] at e1; rw [hqp] at e2; rw [hca] at e3; rw [htn] at e4
      rw [hcn] at e5; rw [hcu] at e8; rw [heu] at e9
      exact ⟨_, (mk_search_eq_ok_iff env qc qpf tca ttn tsf trf lim st tcu esb _).mpr
        ⟨coll, pf, ca, tn, conn2, u2, p2, h2, po2, d2, port, curl, eurl,
          e1, e2, e3, e4, e5, e6, e7, e8, e9, rfl⟩⟩
    · rintro ⟨cfg, hok⟩
      obtain ⟨coll, pf, ca, tn, conn2, u2, p2, h2, po2, d2, port, curl, eurl,
        e1, e2, e3, e4, e5, e6, e7, e8, e9, -⟩ :=
        (mk_search_eq_ok_iff env qc qpf tca ttn tsf trf lim st tcu esb cfg).mp hok
      rw [← hqc env] at e1; rw [← hqp env] at e2; rw [← hca env] at e3; rw [← htn env] at e4
      rw [← hcn env] at e5; rw [← hcu env] at e8; rw [← heu env] at e9
      exact ⟨_, (mk_search_eq_ok_iff _ qc qpf tca ttn none none lim st tcu esb _).mpr
        ⟨coll, pf, ca, tn, conn2, u2, p2, h2, po2, d2, port, curl, eurl,
          e1, e2, e3, e4, e5, e6, e7, e8, e9, rfl⟩⟩

/-- Witness for C9 at a concrete environment with the three defaulted
items absent. -/
theorem defaulted_items_witness :
    cfgD.tidb_config.map TiDBConfig.search_field = some "content" ∧
    cfgD.tidb_config.map TiDBConfig.return_field = some "*" :=
  defaulted_items.1 envD none none 10 (1/2) none cfgD rfl rfl rfl

/-- C10 counterexample: `TIDB_CONNECTION = mysql://u:p@h:٥/db` matches
the expected `mysql://` pattern (the regex's `\d` accepts the Arabic-Indic
digit five, U+0665), and its port represents the integer 5, which lies in
`0..=65535` â yet startup does not proceed past port parsing: it fails with
the TIDB_PORT parse error, because `u16` parsing accepts only ASCII
digits. -/
theorem port_unicode_digit_counterexample :
    envU "TIDB_CONNECTION" = some "mysql://u:p@h:٥/db" ∧
    parse_tidb_conn_str "mysql://u:p@h:٥/db" = some ("u", "p", "h", "٥", "db") ∧
    portRepValue "٥" = 5 ∧ (5 : Nat) ≤ 65535 ∧
    mkSearchConfig envU (.tidb none none none none 10 (1/2) none) =
      .error tidbPortParseErr :=
  ⟨rfl, by decide, by decide, by decide, rfl⟩

/-- C10 (amended): with `TIDB_CONNECTION` matching the pattern and the
other required items resolvable, startup succeeds if and only if the port
group is an ASCII digit string whose decimal value is at most 65535 (this
is what `parse::<u16>` accepts); otherwise â value above 65535 or any
non-ASCII decimal digit â it fails with the port-parse error; and when
startup succeeds the pool carries exactly the parsed port value. -/
theorem port_range_gates_startup :
    (∀ env tca ttn tsf trf lim st tcu conn u p h po d,
       env "TIDB_CONNECTION" = some conn →
       parse_tidb_conn_str conn = some (u, p, h, po, d) →
       isOkE (resolveRequired (env "TIDB_SSL_CA") tca tidbSslCaErr) = true →
       isOkE (resolveRequired (env "TIDB_TABLE_NAME") ttn tidbTableNameErr) = true →
       isOkE (resolveRequired (env "CHAT_SERVICE_BASE_URL") tcu chatServiceBaseUrlErr) = true →
       (isOkE (mkSearchConfig env (.tidb tca ttn tsf trf lim st tcu)) = true ↔
          po.data.all Char.isDigit = true ∧ digitsVal po.data ≤ 65535) ∧
       (¬(po.data.all Char.isDigit = true ∧ digitsVal po.data ≤ 65535) →
          mkSearchConfig env (.tidb tca ttn tsf trf lim st tcu) = .error tidbPortParseErr) ∧
       (∀ cfg, mkSearchConfig env (.tidb tca ttn tsf trf lim st tcu) = .ok cfg →
          cfg.tidb_config.map (fun tc => tc.pool.opts.tcp_port) =
            some (digitsVal po.data))) ∧
    (∀ env qc qpf tca ttn tsf trf lim st tcu esb conn u p h po d,
       env "TIDB_CONNECTION" = some conn →
       parse_tidb_conn_str conn = some (u, p, h, po, d) →
       isOkE (resolveRequired (env "QDRANT_COLLECTION") qc qdrantCollectionErr) = true →
       isOkE (resolveRequired (env "QDRANT_PAYLOAD_FIELD") qpf qdrantPayloadFieldErr) = true →
       isOkE (resolveRequired (env "TIDB_SSL_CA") tca tidbSslCaErr) = true →
       isOkE (resolveRequired (env "TIDB_TABLE_NAME") ttn tidbTableNameErr) = true →
       isOkE (resolveRequired (env "CHAT_SERVICE_BASE_URL") tcu chatServiceBaseUrlErr) = true →
       isOkE (resolveRequired (env "EMBEDDING_SERVICE_BASE_URL") esb embeddingServiceBaseUrlErr) = true →
       (isOkE (mkSearchConfig env (.search qc qpf tca ttn tsf trf lim st tcu esb)) = true ↔
          po.data.all Char.isDigit = true ∧ digitsVal po.data ≤ 65535) ∧
       (¬(po.data.all Char.isDigit = true ∧ digitsVal po.data ≤ 65535) →
          mkSearchConfig env (.search qc qpf tca ttn tsf trf lim st tcu esb) =
            .error tidbPortParseErr) ∧
       (∀ cfg, mkSearchConfig env (.search qc qpf tca ttn tsf trf lim st tcu esb) = .ok cfg →
          cfg.tidb_config.map (fun tc => tc.pool.opts.tcp_port) =
            some (digitsVal po.data))) := by
  constructor
  · intro env tca ttn tsf trf lim st tcu conn u p h po d hconn hparse hsslok htabok hchatok
    obtain ⟨ca, hca2⟩ := (isOkE_true_iff _).mp hsslok
    obtain ⟨tn, htn2⟩ := (isOkE_true_iff _).mp htabok
    obtain ⟨curl, hcu2⟩ := (isOkE_true_iff _).mp hchatok
    obtain ⟨hpo1, hpo2⟩ := parse_ok_parts conn u p h po d hparse
    have hpu : parseU16 po =
        if po.data.all Char.isDigit = true ∧ digitsVal po.data ≤ 65535
        then some (digitsVal po.data) else none :=
      parseU16List_of_ndDigits po.data hpo1 hpo2
    refine ⟨?_, ?_, ?_⟩
    · constructor
      · intro hok
        obtain ⟨cfg, hcfg⟩ := (isOkE_true_iff _).mp hok
        obtain ⟨ca', tn', conn2, u2, p2, h2, po2x, d2, port, curl', -, -, e3, e4, e5, -, -⟩ :=
          (mk_tidb_eq_ok_iff env tca ttn tsf trf lim st tcu cfg).mp hcfg
        rw [hconn] at e3
        obtain rfl : conn = conn2 := by simpa using e3
        rw [hparse] at e4
        obtain ⟨-, -, -, rfl, -⟩ :
            u = u2 ∧ p = p2 ∧ h = h2 ∧ po = po2x ∧ d = d2 := by simpa using e4
        rw [hpu] at e5
        by_cases hcond : po.data.all Char.isDigit = true ∧ digitsVal po.data ≤ 65535
        · exact hcond
        · rw [if_neg hcond] at e5; exact Option.noConfusion e5
      · intro hcond
        refine (isOkE_true_iff _).mpr
          ⟨_, (mk_tidb_eq_ok_iff env tca ttn tsf trf lim st tcu _).mpr
            ⟨ca, tn, conn, u, p, h, po, d, digitsVal po.data, curl,
              hca2, htn2, hconn, hparse, ?_, hcu2, rfl⟩⟩
        rw [hpu, if_pos hcond]
    · intro hcond
      have hpu2 : parseU16 po = none := by rw [hpu, if_neg hcond]
      simp [mkSearchConfig, hca2, htn2, hconn, hparse, hpu2]
    · intro cfg hcfg
      obtain ⟨ca', tn', conn2, u2, p2, h2, po2x, d2, port, curl', -, -, e3, e4, e5, -, rfl⟩ :=
        (mk_tidb_eq_ok_iff env tca ttn tsf trf lim st tcu cfg).mp hcfg
      rw [hconn] at e3
      obtain rfl : conn = conn2 := by simpa using e3
      rw [hparse] at e4
      obtain ⟨-, -, -, rfl, -⟩ :
          u = u2 ∧ p = p2 ∧ h = h2 ∧ po = po2x ∧ d = d2 := by simpa using e4
      rw [hpu] at e5
      by_cases hcond : po.data.all Char.isDigit = true ∧ digitsVal po.data ≤ 65535
      · rw [if_pos hcond] at e5
        obtain rfl : digitsVal po.data = port := by simpa using e5
        rfl
      · rw [if_neg hcond] at e5; exact Option.noConfusion e5
  · intro env qc qpf tca ttn tsf trf lim st tcu esb conn u p h po d hconn hparse
      hqcok hqpok hsslok htabok hchatok hembok
    obtain ⟨coll, hqc2⟩ := (isOkE_true_iff _).mp hqcok
    obtain ⟨pf, hqp2⟩ := (isOkE_true_iff _).mp hqpok
    obtain ⟨ca, hca2⟩ := (isOkE_true_iff _).mp hsslok
    obtain ⟨tn, htn2⟩ := (isOkE_true_iff _).mp htabok
    obtain ⟨curl, hcu2⟩ := (isOkE_true_iff _).mp hchatok
    obtain ⟨eurl, heu2⟩ := (isOkE_true_iff _).mp hembok
    obtain ⟨hpo1, hpo2⟩ := parse_ok_parts conn u p h po d hparse
    have hpu : parseU16 po =
        if po.data.all Char.isDigit = true ∧ digitsVal po.data ≤ 65535
        then some (digitsVal po.data) else none :=
      parseU16List_of_ndDigits po.data hpo1 hpo2
    refine ⟨?_, ?_, ?_⟩
    · constructor
      · intro hok
        obtain ⟨cfg, hcfg⟩ := (isOkE_true_iff _).mp hok
        obtain ⟨coll', pf', ca', tn', conn2, u2, p2, h2, po2x, d2, port, curl', eurl',
          -, -, -, -, e5, e6, e7, -, -, -⟩ :=
          (mk_search_eq_ok_iff env qc qpf tca ttn tsf trf lim st tcu esb cfg).mp hcfg
        rw [hconn] at e5
        obtain rfl : conn = conn2 := by simpa using e5
        rw [hparse] at e6
        obtain ⟨-, -, -, rfl, -⟩ :
            u = u2 ∧ p = p2 ∧ h = h2 ∧ po = po2x ∧ d = d2 := by simpa using e6
        rw [hpu] at e7
        by_cases hcond : po.data.all Char.isDigit = true ∧ digitsVal po.data ≤ 65535
        · exact hcond
        · rw [if_neg hcond] at e7; exact Option.noConfusion e7
      · intro hcond
        refine (isOkE_true_iff _).mpr
          ⟨_, (mk_search_eq_ok_iff env qc qpf tca ttn tsf trf lim st tcu esb _).mpr
            ⟨coll, pf, ca, tn, conn, u, p, h, po, d, digitsVal po.data, curl, eurl,
              hqc2, hqp2, hca2, htn2, hconn, hparse, ?_, hcu2, heu2, rfl⟩⟩
        rw [hpu, if_pos hcond]
    · intro hcond
      have hpu2 : parseU16 po = none := by rw [hpu, if_neg hcond]
      simp [mkSearchConfig, hqc2, hqp2, hca2, htn2, hconn, hparse, hpu2]
    · intro cfg hcfg
      obtain ⟨coll', pf', ca', tn', conn2, u2, p2, h2, po2x, d2, port, curl', eurl',
        -, -, -, -, e5, e6, e7, -, -, rfl⟩ :=
        (mk_search_eq_ok_iff env qc qpf tca ttn tsf trf lim st tcu esb cfg).mp hcfg
      rw [hconn] at e5
      obtain rfl : conn = conn2 := by simpa using e5
      rw [hparse] at e6
      obtain ⟨-, -, -, rfl, -⟩ :
          u = u2 ∧ p = p2 ∧ h = h2 ∧ po = po2x ∧ d = d2 := by simpa using e6
      rw [hpu] at e7
      by_cases hcond : po.data.all Char.isDigit = true ∧ digitsVal po.data ≤ 65535
      · rw [if_pos hcond] at e7
        obtain rfl : digitsVal po.data = port := by simpa using e7
        rfl
      · rw [if_neg hcond] at e7; exact Option.noConfusion e7

/-- Witness for the amended C10 at a concrete environment with port 4000. -/
theorem port_range_gates_startup_witness :
    isOkE (mkSearchConfig envT (.tidb none none none none 10 (1/2) none)) = true ↔
      ("4000" : String).data.all Char.isDigit = true ∧
        digitsVal ("4000" : String).data ≤ 65535 :=
  (port_range_gates_startup.1 envT none none none none 10 (1/2) none
    "mysql://u:pw@h:4000/db" "u" "pw" "h" "4000" "db" rfl rfl rfl rfl rfl).1

/-- C2 counterexample: with every environment variable set (to "42"), the
constructed configuration still takes its result-count limit and score
threshold from the command line (7 and 0.75 here), so neither item is
resolvable from an environment variable taking precedence over the flag —
contrary to the claim that every startup configuration item is. -/
theorem limit_threshold_cli_only_counterexample :
    mkSearchConfig envAll42 (.qdrant none none 7 (3/4) none) = .ok cfg742 ∧
    cfg742.limit = 7 ∧ cfg742.score_threshold = 3/4 ∧
    envAll42 "LIMIT" = some "42" ∧ envAll42 "SCORE_THRESHOLD" = some "42" :=
  ⟨rfl, rfl, rfl, rfl, rfl⟩

/-- C2 (amended): credentials, field/table names and service base URLs are
resolvable from environment variables which take precedence over the
corresponding command-line flags, with a default or a startup error when
neither is supplied; the result-count limit and the score threshold are
taken from the command line only (the environment is never consulted for
them). -/
theorem config_resolution_amended :
    (∀ env qc qpf lim st esb cfg,
       mkSearchConfig env (.qdrant qc qpf lim st esb) = .ok cfg →
       cfg.limit = lim ∧ cfg.score_threshold = st ∧
       cfg.qdrant_config.map QdrantConfig.collection = firstOf (env "QDRANT_COLLECTION") qc ∧
       cfg.qdrant_config.map QdrantConfig.payload_source =
         firstOf (env "QDRANT_PAYLOAD_FIELD") qpf ∧
       cfg.embedding_service.map ServiceConfig.url =
         firstOf (env "EMBEDDING_SERVICE_BASE_URL") esb ∧
       cfg.qdrant_config.map QdrantConfig.api_key = some (env "QDRANT_API_KEY") ∧
       cfg.qdrant_config.map QdrantConfig.base_url =
         some ((env "QDRANT_BASE_URL").getD DEFAULT_QDRANT_BASE_URL)) ∧
    (∀ env tca ttn tsf trf lim st tcu cfg,
       mkSearchConfig env (.tidb tca ttn tsf trf lim st tcu) = .ok cfg →
       cfg.limit = lim ∧ cfg.score_threshold = st ∧
       cfg.tidb_config.map TiDBConfig.table_name = firstOf (env "TIDB_TABLE_NAME") ttn ∧
       cfg.tidb_config.map TiDBConfig.search_field =
         some (resolveDefault (env "TIDB_SEARCH_FIELD") tsf "content") ∧
       cfg.tidb_config.map TiDBConfig.return_field =
         some (resolveDefault (env "TIDB_RETURN_FIELD") trf "*") ∧
       cfg.tidb_config.map (fun tc => tc.pool.opts.ssl_ca) =
         (firstOf (env "TIDB_SSL_CA") tca).map some ∧
       cfg.chat_service.map ServiceConfig.url = firstOf (env "CHAT_SERVICE_BASE_URL") tcu) ∧
    (∀ env qc qpf tca ttn tsf trf lim st tcu esb cfg,
       mkSearchConfig env (.search qc qpf tca ttn tsf trf lim st tcu esb) = .ok cfg →
       cfg.limit = lim ∧ cfg.score_threshold = st ∧
       cfg.qdrant_config.map QdrantConfig.collection = firstOf (env "QDRANT_COLLECTION") qc ∧
       cfg.tidb_config.map TiDBConfig.table_name = firstOf (env "TIDB_TABLE_NAME") ttn ∧
       cfg.chat_service.map ServiceConfig.url = firstOf (env "CHAT_SERVICE_BASE_URL") tcu ∧
       cfg.embedding_service.map ServiceConfig.url =
         firstOf (env "EMBEDDING_SERVICE_BASE_URL") esb) ∧
    (∀ v a m, resolveRequired (some v) a m = .ok v) ∧
    (∀ a m, resolveRequired none (some a) m = .ok a) ∧
    (∀ m, resolveRequired none none m = Except.error m) ∧
    (∀ v a dflt, resolveDefault (some v) a dflt = v) ∧
    (∀ a dflt, resolveDefault none (some a) dflt = a) ∧
    (∀ dflt, resolveDefault none none dflt = dflt) := by
  refine ⟨?_, ?_, ?_, fun v a m => rfl, fun a m => rfl, fun m => rfl,
    fun v a dflt => rfl, fun a dflt => rfl, fun dflt => rfl⟩
  · intro env qc qpf lim st esb cfg hok
    obtain ⟨coll, pf, eurl, e1, e2, e3, rfl⟩ :=
      (mk_qdrant_eq_ok_iff env qc qpf lim st esb cfg).mp hok
    rw [resolveRequired_ok_firstOf] at e1 e2 e3
    exact ⟨rfl, rfl, by rw [e1]; rfl, by rw [e2]; rfl, by rw [e3]; rfl, rfl, rfl⟩
  · intro env tca ttn tsf trf lim st tcu cfg hok
    obtain ⟨ca, tn, conn2, u2, p2, h2, po2, d2, port, curl, e1, e2, -, -, -, e6, rfl⟩ :=
      (mk_tidb_eq_ok_iff env tca ttn tsf trf lim st tcu cfg).mp hok
    rw [resolveRequired_ok_firstOf] at e1 e2 e6
    exact ⟨rfl, rfl, by rw [e2]; rfl, rfl, rfl, by rw [e1]; rfl, by rw [e6]; rfl⟩
  · intro env qc qpf tca ttn tsf trf lim st tcu esb cfg hok
    obtain ⟨coll, pf, ca, tn, conn2, u2, p2, h2, po2, d2, port, curl, eurl,
      e1, e2, e3, e4, -, -, -, e8, e9, rfl⟩ :=
      (mk_search_eq_ok_iff env qc qpf tca ttn tsf trf lim st tcu esb cfg).mp hok
    rw [resolveRequired_ok_firstOf] at e1 e4 e8 e9
    exact ⟨rfl, rfl, by rw [e1]; rfl, by rw [e4]; rfl, by rw [e8]; rfl,
      by rw [e9]; rfl⟩

/-- Witness for the amended C2 at a concrete environment and flags. -/
theorem config_resolution_amended_witness :
    cfg742.limit = 7 ∧ cfg742.score_threshold = 3/4 :=
  ⟨(config_resolution_amended.1 envAll42 none none 7 (3/4) none cfg742 rfl).1,
   (config_resolution_amended.1 envAll42 none none 7 (3/4) none cfg742 rfl).2.1⟩

/-- C8 counterexample: the input `mysql://u:pw@h:1/a\nb` satisfies the
pattern exactly as the claim words it (DATABASE = "a\nb" is non-empty), yet
`parse_tidb_conn_str` returns `none`, because `.` in the regex does not
match a newline; and conversely `mysql://u:p@h:٥/d` is accepted by the
function (the regex's `\d` matches the Arabic-Indic digit five, U+0665)
although its port is not a digit string in the claim's 0-9 sense. -/
theorem conn_pattern_counterexample :
    claimConnPattern "mysql://u:pw@h:1/a\nb" "u" "pw" "h" "1" "a\nb" ∧
    parse_tidb_conn_str "mysql://u:pw@h:1/a\nb" = none ∧
    parse_tidb_conn_str "mysql://u:p@h:٥/d" = some ("u", "p", "h", "٥", "d") ∧
    ("٥" : String).data.all Char.isDigit = false := by
  refine ⟨?_, rfl, by decide, by decide⟩
  unfold claimConnPattern
  decide

/-- Witness for the amended C8 at a concrete matching connection string. -/
theorem parse_tidb_conn_str_witness :
    parse_tidb_conn_str "mysql://u:pw@h:4000/db" = some ("u", "pw", "h", "4000", "db") :=
  (parse_tidb_conn_str_eq_some_iff "mysql://u:pw@h:4000/db" "u" "pw" "h" "4000" "db").mpr
    (by decide)

end AgenticSearch
